import Mathlib

/-!
Verification of the livepatch machine charm (src/src/charm.py and
src/src/actions/*.py) against its natural-language specification.

The Python code is shallowly embedded: ambient unit status is threaded
explicitly, snap/subprocess side effects are recorded in effect traces,
and uncaught Python exceptions (RuntimeError, IndexError, ValueError)
are modelled with `Except String`.  External capabilities (the snap's
schema version-check command, bcrypt hashing) are abstract function
parameters.  Python `str.split(sep)` for a one-character separator and
`str.splitlines()` on newline-separated text are modelled by executable
char-list recursions so that all definitions evaluate by kernel
reduction.
-/

namespace LivepatchCharm

instance {ε α : Type} [DecidableEq ε] [DecidableEq α] : DecidableEq (Except ε α) := fun a b =>
  match a, b with
  | .error e1, .error e2 =>
    if h : e1 = e2 then .isTrue (congrArg Except.error h)
    else .isFalse (fun hh => h (Except.error.inj hh))
  | .ok v1, .ok v2 =>
    if h : v1 = v2 then .isTrue (congrArg Except.ok h)
    else .isFalse (fun hh => h (Except.ok.inj hh))
  | .error _, .ok _ => .isFalse (fun hh => Except.noConfusion hh)
  | .ok _, .error _ => .isFalse (fun hh => Except.noConfusion hh)

/-! ## Python string helpers -/

/-- Python `str.split(sep)` for a single-character separator:
`"".split(",") = [""]`, `"a,b".split(",") = ["a", "b"]`. -/
def pySplit (sep : Char) (s : String) : List String :=
  go s.data []
where
  go : List Char → List Char → List String
    | [], acc => [String.mk acc.reverse]
    | c :: cs, acc =>
      if c = sep then String.mk acc.reverse :: go cs [] else go cs (c :: acc)

/-- Python `str.split(sep, 1)[0]` for a single-character separator: the part of
the string before the first occurrence of `sep` (the whole string if absent). -/
def pySplitFirst (sep : Char) (s : String) : String :=
  String.mk (s.data.takeWhile (fun c => c ≠ sep))

/-- Python `str.splitlines()` on newline-separated text:
`"".splitlines() = []`, `"\n".splitlines() = [""]`,
`"a\nb".splitlines() = ["a", "b"]`, `"a\n".splitlines() = ["a"]`. -/
def pySplitlines (s : String) : List String :=
  let parts := pySplit (Char.ofNat 10) s
  if parts.getLast? = some "" then parts.dropLast else parts

/-- Python `",".join(l)`. -/
def pyJoin (sep : String) : List String → String
  | [] => ""
  | [x] => x
  | x :: y :: rest => x ++ sep ++ pyJoin sep (y :: rest)

/-- Whether `pat` occurs as a contiguous substring of `s`
(Python `s.find(pat) != -1`). -/
def strOccurs (s pat : String) : Bool :=
  (List.range (s.data.length + 1)).any (fun i => pat.data.isPrefixOf (s.data.drop i))

/-- Lexicographic comparison of char lists by code point, the order Python
uses to compare `str` values. -/
def lexLe : List Char → List Char → Bool
  | [], _ => true
  | _ :: _, [] => false
  | a :: as, b :: bs =>
    if a.toNat < b.toNat then true
    else if b.toNat < a.toNat then false
    else lexLe as bs

/-- Python `a <= b` on strings. -/
def strLe (a b : String) : Bool :=
  lexLe a.data b.data

/-! ## Data model -/

/-- A configuration value in the charm-config / snap-config dictionaries. -/
inductive CVal where
  | str (v : String)
  | bool (v : Bool)
  | null
deriving DecidableEq, Repr

/-- A Python dict with string keys, as an insertion-ordered association list. -/
abbrev ConfigMap := List (String × CVal)

/-- Python `d[k] = v`: replace in place if `k` is present, else append. -/
def setKey (m : ConfigMap) (k : String) (v : CVal) : ConfigMap :=
  match m with
  | [] => [(k, v)]
  | (k0, v0) :: rest => if k0 = k then (k, v) :: rest else (k0, v0) :: setKey rest k v

/-- Python `d.pop(k, None)`: drop the entry for `k` if present. -/
def popKey (m : ConfigMap) (k : String) : ConfigMap :=
  m.filter (fun kv => kv.1 ≠ k)

/-- Python `d.get(k)`: the value stored at `k`, if any. -/
def getKey (m : ConfigMap) (k : String) : Option CVal :=
  (m.find? (fun kv => kv.1 = k)).map (fun kv => kv.2)

/-- The kind of an ops unit status (`ActiveStatus`, `BlockedStatus`,
`MaintenanceStatus`, `WaitingStatus`). -/
inductive StatusLevel where
  | active
  | blocked
  | maintenance
  | waiting
deriving DecidableEq, Repr

/-- A unit status: a status class together with its message. -/
structure UnitStatus where
  level : StatusLevel
  message : String
deriving DecidableEq, Repr

/-- The shared peer state (`State` in src/state.py, imported by charm.py;
only the fields the verified handlers touch are modelled). -/
structure PeerState where
  db_uri : Option String
  db_ro_uris : List String
  restart_cue : Option Nat
deriving DecidableEq, Repr

/-! ## Constants (src/src/constants and literals in charm.py) -/

def DATABASE_NAME : String := "livepatch"
def LIVEPATCH_NOT_INSTALLED_ERROR : String :=
  "Livepatch snap not installed, re-install the charm or run the install hook again."
def CHECKING_DB_VERS : String := "Checking database schema version..."
def AWAIT_POSTGRES_RELATION : String := "Waiting for postgres relation to be established."

/-! ## Auxiliary service locator (pro-airgapped-server) -/

/-- A remote unit's databag on the pro-airgapped-server relation. -/
structure ProUnitData where
  hostname : Option String
  scheme : Option String
  port : Option String
deriving DecidableEq, Repr

/-- A remote unit on the pro-airgapped-server relation; `data = none` models
`relation.data.get(unit, None)` being absent or empty (falsy). -/
structure ProUnit where
  name : String
  data : Option ProUnitData
deriving DecidableEq, Repr

/-- Embeds `OperatorMachineCharm._extract_pro_airgapped_server_address`:
compose `scheme://hostname[:port]` from a unit databag, `scheme` defaulting to
`http`, `:port` omitted when absent; `None` when `hostname` is missing/empty. -/
def extractProAirgappedServerAddress (d : ProUnitData) : Option String :=
  match d.hostname with
  | none => none
  | some h =>
    if h = "" then none
    else
      let scheme :=
        match d.scheme with
        | none => "http"
        | some s => if s = "" then "http" else s
      let netloc :=
        h ++ (match d.port with
              | none => ""
              | some p => if p = "" then "" else ":" ++ p)
      some (scheme ++ "://" ++ netloc)

/-- The address a unit contributes, if its databag is present and valid. -/
def proAddressOf (u : ProUnit) : Option String :=
  match u.data with
  | none => none
  | some d => extractProAirgappedServerAddress d

/-- Whether the loop in `_get_available_pro_airgapped_server_address` would
stop at `u`: its databag is present (truthy) and yields a truthy address. -/
def proQualifies (u : ProUnit) : Bool :=
  match proAddressOf u with
  | some a => a ≠ ""
  | none => false

/-- Embeds `sorted(relation.units, key=lambda unit: unit.name)` (a stable sort). -/
def sortProUnits (units : List ProUnit) : List ProUnit :=
  List.insertionSort (fun a b => strLe a.name b.name = true) units

/-- The scan of `_get_available_pro_airgapped_server_address` over the
already-sorted unit list. -/
def proScan : List ProUnit → Option String
  | [] => none
  | u :: rest =>
    match u.data with
    | none => proScan rest
    | some d =>
      match extractProAirgappedServerAddress d with
      | none => proScan rest
      | some addr => if addr = "" then proScan rest else some addr

/-- Embeds `OperatorMachineCharm._get_available_pro_airgapped_server_address`:
iterate over the name-sorted units and return the first truthy address. -/
def getAvailableProAirgappedServerAddress (units : List ProUnit) : Option String :=
  proScan (sortProUnits units)

/-! ## Schema migration gate -/

/-- Embeds `OperatorMachineCharm._check_schema_upgrade_ran`.

`marker` stands for `SCHEMA_VERSION_CHECK_ERROR` (imported by charm.py from
constants/errors.py, a file not present under src/, so the marker string is
kept abstract).  `cap` is the output of
`util.schema_tool.run_schema_version_check` as a function of the database URI
it is invoked with; per that function, a non-zero-exit invocation has its
output captured and returned like ordinary output.  On the leader the code
runs `result.splitlines()[0].find(marker) != -1`; indexing `[0]` on an empty
list raises `IndexError`, modelled as `.error`. -/
def checkSchemaUpgradeRan (marker : String) (leader : Bool) (dbUri : Option String)
    (cap : Option String → String) : Except String (Bool × String) :=
  if leader then
    match pySplitlines (cap dbUri) with
    | [] => .error "IndexError: list index out of range"
    | line :: _ =>
      if strOccurs line marker then .ok (true, cap dbUri)
      else .ok (false, cap dbUri)
  else
    .ok (false, "")

/-! ## Reconciliation engine -/

/-- The external environment of one reconciliation pass: snap install state,
the version-check capability, whether the configured CA blob base64-decodes,
whether `snap.restart` raises, and whether the `livepatch` snap service is
active when probed after the restart.  (`snap.set` failures are caught and
only logged by the code, so they do not need a flag; the
`update-ca-certificates` subprocess is assumed to succeed.) -/
structure ReconEnv where
  installed : Bool
  cap : Option String → String
  caDecodeOk : Bool
  restartRaises : Bool
  running : Bool

/-- The input snapshot of one reconciliation pass: operator config, leadership,
model uuid, relation counts, pro-airgapped-server relations (each as its unit
list), peer state, the abstract `SCHEMA_VERSION_CHECK_ERROR` marker, and
whether the triggering event object is present/deferrable (`event` is `None`
for non-deferrable callers). -/
structure ReconInput where
  config : ConfigMap
  leader : Bool
  modelUuid : String
  databaseRelCount : Nat
  legacyRelCount : Nat
  proRelations : List (List ProUnit)
  state : PeerState
  marker : String
  eventDeferrable : Bool

/-- Side effects recorded by one reconciliation pass: each map passed to
`snap.set`, the number of `snap.restart` calls, whether the triggering event
was deferred, and the number of trusted-CA certificate writes. -/
structure Effects where
  setCalls : List ConfigMap
  restartCalls : Nat
  deferred : Bool
  caWrites : Nat
deriving DecidableEq, Repr

def Effects.empty : Effects := ⟨[], 0, false, 0⟩

/-- Embeds `OperatorMachineCharm._check_required_config_assigned`: `some status` means
the check failed and set that status; `none` means all required settings are
assigned.  `REQUIRED_SETTINGS` contains the single key `server.url-template`,
and a value of `None` or `""` counts as unassigned. -/
def checkRequiredConfigAssigned (config : ConfigMap) : Option UnitStatus :=
  match getKey config "server.url-template" with
  | none => some ⟨.blocked, "✘ server.url-template config not set"⟩
  | some (CVal.str "") => some ⟨.blocked, "✘ server.url-template config not set"⟩
  | some CVal.null => some ⟨.blocked, "✘ server.url-template config not set"⟩
  | some _ => none

/-- Embeds `OperatorMachineCharm._check_install_and_relations`: `some status` means
the check failed and set that status; `none` means all is well. -/
def checkInstallAndRelations (env : ReconEnv) (inp : ReconInput) : Option UnitStatus :=
  if env.installed ≠ true then
    some ⟨.maintenance, LIVEPATCH_NOT_INSTALLED_ERROR⟩
  else
    let dbJoined := inp.databaseRelCount > 0
    let legacyDbJoined := inp.legacyRelCount > 0
    if ¬dbJoined ∧ ¬legacyDbJoined then
      some ⟨.blocked, AWAIT_POSTGRES_RELATION⟩
    else if inp.state.db_uri = none then
      if dbJoined then some ⟨.waiting, "Waiting for postgres..."⟩
      else some ⟨.waiting, "Waiting for postgres to select primary node..."⟩
    else
      none

/-- Embeds `OperatorMachineCharm._database_migrated`: sets `CHECKING_DB_VERS`, runs
the schema gate, and either blocks (`.ok (false, blocked-status)`) or
proceeds (`.ok (true, checking-status)`).  A crash of the gate propagates. -/
def databaseMigrated (env : ReconEnv) (inp : ReconInput) :
    Except String (Bool × UnitStatus) :=
  match checkSchemaUpgradeRan inp.marker inp.leader inp.state.db_uri env.cap with
  | .error e => .error e
  | .ok (upgradeRequired, _version) =>
    if upgradeRequired then
      .ok (false, ⟨.blocked, "Database not initialised, please run the schema-upgrade action."⟩)
    else
      .ok (true, ⟨.waiting, CHECKING_DB_VERS⟩)

/-- Embeds `OperatorMachineCharm._update_trusted_ca_certs`, reduced to its effect
count: one CA write when `contracts.ca` is a non-empty string that
base64-decodes; any decode failure is caught and skipped. -/
def updateTrustedCaCerts (env : ReconEnv) (inp : ReconInput) : Nat :=
  match getKey inp.config "contracts.ca" with
  | some (CVal.str s) => if s = "" then 0 else if env.caDecodeOk then 1 else 0
  | _ => 0

/-- The `configuration` dict assembled by
`OperatorMachineCharm._update_workload_configuration` (lines 263-286), before
key prefixing.  `len(None)` in the `patch-storage.postgres-connection-string`
override test would raise `TypeError`, modelled as `.error`. -/
def buildConfiguration (inp : ReconInput) : Except String ConfigMap :=
  let c1 := setKey inp.config "server.is-leader" (CVal.bool inp.leader)
  let c2 := setKey c1 "database.connection-string"
      (match inp.state.db_uri with | none => CVal.null | some u => CVal.str u)
  match getKey inp.config "patch-storage.postgres-connection-string" with
  | some (CVal.str v) =>
    let c3 :=
      if v.length = 0 then
        setKey c2 "patch-storage.postgres-connection-string"
          (match inp.state.db_uri with | none => CVal.null | some u => CVal.str u)
      else c2
    let c4 :=
      if getKey inp.config "patch-sync.enabled" = some (CVal.bool true) then
        setKey c3 "patch-sync.id" (CVal.str inp.modelUuid)
      else c3
    let c5 :=
      match inp.proRelations.head? with
      | none => c4
      | some units =>
        match getAvailableProAirgappedServerAddress units with
        | none => c4
        | some addr =>
          if addr = "" then c4
          else
            popKey (popKey
              (setKey (setKey c4 "contracts.enabled" (CVal.bool true))
                "contracts.url" (CVal.str addr))
              "contracts.user") "contracts.password"
    .ok c5
  | _ => .error "TypeError: object of type NoneType has no len()"

/-- Embeds the key-prefixing dict comprehension of line 289 of charm.py, which
maps every key to the same key with `lp.` prepended. -/
def prefixConfiguration (c : ConfigMap) : ConfigMap :=
  c.map (fun kv => ("lp." ++ kv.1, kv.2))

/-- Whether a snap-configuration key carries the `lp.` namespace. -/
def hasLpNS (k : String) : Bool :=
  "lp.".data.isPrefixOf k.data

/-- Embeds `OperatorMachineCharm._update_unit_status` (the update-status tick):
`current` is `self.unit.status` on entry.  When
`_check_install_and_relations` fails it has set its own status; otherwise a
running daemon yields the active status, a non-running daemon downgrades an
`Active` status to maintenance and leaves any other status untouched. -/
def updateUnitStatus (env : ReconEnv) (inp : ReconInput) (current : UnitStatus) : UnitStatus :=
  match checkInstallAndRelations env inp with
  | some stat => stat
  | none =>
    if env.running then ⟨.active, "Livepatch running!"⟩
    else if current.level = .active then ⟨.maintenance, "Livepatch is not running."⟩
    else current

/-- Embeds `OperatorMachineCharm._update_workload_configuration`: one reconciliation
pass, from the unit status `st0` on entry to the final unit status plus the
recorded side effects.  The ambient `self.unit.status` is threaded
explicitly; note the code overwrites it (line 298) before the only two reads
(lines 308 and 319-326), so the result never depends on `st0`. -/
def updateWorkloadConfiguration (env : ReconEnv) (inp : ReconInput) (st0 : UnitStatus) :
    Except String (UnitStatus × Effects) :=
  match checkRequiredConfigAssigned inp.config with
  | some stat => .ok (stat, Effects.empty)
  | none =>
    match checkInstallAndRelations env inp with
    | some stat => .ok (stat, Effects.empty)
    | none =>
      match databaseMigrated env inp with
      | .error e => .error e
      | .ok (false, stat) => .ok (stat, Effects.empty)
      | .ok (true, _checking) =>
        match buildConfiguration inp with
        | .error e => .error e
        | .ok configuration =>
          if env.restartRaises then
            .ok (⟨.maintenance, "Livepatch failed to restart."⟩,
                 ⟨[prefixConfiguration configuration], 1, inp.eventDeferrable,
                  updateTrustedCaCerts env inp⟩)
          else if ("Restarting livepatch daemon..." : String) = AWAIT_POSTGRES_RELATION then
            .ok (⟨.waiting, "Restarting livepatch daemon..."⟩,
                 ⟨[prefixConfiguration configuration], 1, inp.eventDeferrable,
                  updateTrustedCaCerts env inp⟩)
          else if env.running ≠ true then
            .ok (⟨.maintenance, "Livepatch failed to restart."⟩,
                 ⟨[prefixConfiguration configuration], 1, inp.eventDeferrable,
                  updateTrustedCaCerts env inp⟩)
          else
            .ok (updateUnitStatus env inp ⟨.waiting, "Restarting livepatch daemon..."⟩,
                 ⟨[prefixConfiguration configuration], 1, false,
                  updateTrustedCaCerts env inp⟩)

/-! ## Database relation handlers -/

/-- Result of `_on_legacy_db_relation_joined` short of raising. -/
inductive LegacyJoinedOutcome where
  | setEventDatabase (name : String)
  | deferredEvent
  | ignored
deriving DecidableEq, Repr

/-- Embeds `OperatorMachineCharm._on_legacy_db_relation_joined`: on the leader, a
joined modern `database` relation makes it raise `RuntimeError`; otherwise
the leader assigns `event.database`, and a non-leader defers until the
leader has done so. -/
def onLegacyDbRelationJoined (leader : Bool) (databaseRelCount : Nat)
    (eventDatabase : Option String) : Except String LegacyJoinedOutcome :=
  if leader then
    if databaseRelCount > 0 then
      .error "Integration with both database relations is not allowed; `database` is already activated."
    else
      .ok (.setEventDatabase DATABASE_NAME)
  else if eventDatabase ≠ some DATABASE_NAME then
    .ok .deferredEvent
  else
    .ok .ignored

/-- Result of `_on_database_event` short of raising. -/
inductive DatabaseEventOutcome where
  | ignored
  | deferredEvent
  | updated
deriving DecidableEq, Repr

/-- Embeds `OperatorMachineCharm._on_database_event` (database_created /
endpoints_changed): non-leaders return; a joined legacy relation makes it
raise `RuntimeError`; missing credentials defer; otherwise `db_uri` is
composed from the credentials and the first endpoint of the comma-separated
list and recorded in the peer state (after which the code runs
`_update_workload_configuration`, modelled separately). -/
def onDatabaseEvent (leader : Bool) (legacyRelCount : Nat)
    (username password : Option String) (endpoints : String) (st : PeerState) :
    Except String (PeerState × DatabaseEventOutcome) :=
  if ¬leader then .ok (st, .ignored)
  else if legacyRelCount > 0 then
    .error "Integration with both database relations is not allowed; `database-legacy` is already activated."
  else
    match username, password with
    | some u, some p =>
      let ep := pySplitFirst (Char.ofNat 44) endpoints
      let uri := "postgresql://" ++ u ++ ":" ++ p ++ "@" ++ ep ++ "/" ++ DATABASE_NAME
      .ok ({ st with db_uri := some uri }, .updated)
    | _, _ => .ok (st, .deferredEvent)

/-! ## Actions -/

/-- Observable outcome of the `enable` action: `event.fail` messages, maps
passed to `snap.set`, and `event.set_results` payloads. -/
structure EnableOutcome where
  failMsgs : List String
  setCalls : List ConfigMap
  results : List (String × String)
deriving DecidableEq, Repr

/-- Embeds `on_enable_action` of actions/enable.py: `retrievedToken` is what
the snap-config get of the token key returns after the action sets it. -/
def onEnableAction (installed : Bool) (retrievedToken : String)
    (token : Option String) : EnableOutcome :=
  match token with
  | none => ⟨["No token provided."], [], []⟩
  | some t =>
    if t.length = 0 then ⟨["No token provided."], [], []⟩
    else if ¬installed then ⟨["Livepatch snap is not installed."], [], []⟩
    else if retrievedToken.length = 0 then
      ⟨["Failed to enable Ubuntu Pro, is your token correct?"], [[("token", CVal.str t)]], []⟩
    else
      ⟨[], [[("token", CVal.str t)]], [("enabled", "true")]⟩

/-- Observable outcome of the `set-basic-users` action. -/
structure BasicUsersOutcome where
  failMsgs : List String
  setCalls : List ConfigMap
  restartCalls : Nat
  usersSet : Option (List String)
deriving DecidableEq, Repr

/-- The per-entry loop of `on_set_basic_users_action` (lines 50-59):
`username, password = u.split(":")` (raising `ValueError` unless the entry
splits in exactly two), the 72-character password length check, and bcrypt
hashing via the abstract capability `hashpw` (which itself may raise).
`.inl msg` is the fail-and-return of an over-long password; `.inr (hs, ss)`
collects `hashed_users` and `set_users`. -/
def processUsers (hashpw : String → Except String String) :
    List String → Except String (String ⊕ (List String × List String))
  | [] => .ok (.inr ([], []))
  | u :: rest =>
    match pySplit (Char.ofNat 58) u with
    | [username, password] =>
      if 72 < password.length then
        .ok (.inl ("Password: " ++ password ++ " cannot be more than 72 characters."))
      else
        match hashpw password with
        | .error e => .error e
        | .ok hp =>
          match processUsers hashpw rest with
          | .error e => .error e
          | .ok (.inl m) => .ok (.inl m)
          | .ok (.inr (hs, ss)) => .ok (.inr ((username ++ ":" ++ hp) :: hs, username :: ss))
    | _ => .error "ValueError: unpacking user:pass entry"

/-- The append-mode collision scan of `on_set_basic_users_action`
(`uname = existing_user.split(":"); uname[0] in set_users`). -/
def findCollision (setUsers : List String) : List String → Option String
  | [] => none
  | e :: rest =>
    let uname := (pySplit (Char.ofNat 58) e).headD ""
    if setUsers.contains uname then some uname else findCollision setUsers rest

/-- Embeds `on_set_basic_users_action` of actions/set_basic_users.py.  `existingUsers`
is what `snap.get("lp.auth.basic.users")` returns in append mode;
`runningAfterRestart` is the service state probed after the restart.  Note
the source's `fail_action` on an empty existing-user list does not return,
so processing continues (its message is still recorded). -/
def onSetBasicUsersAction (hashpw : String → Except String String)
    (existingUsers : String) (runningAfterRestart : Bool)
    (users : Option String) (append : Bool) : Except String BasicUsersOutcome :=
  let noUsersMsg := "No users provided to be set. Please provide users as: users=user:pass,user:pass"
  match users with
  | none => .ok ⟨[noUsersMsg], [], 0, none⟩
  | some us =>
    if us.length = 0 then .ok ⟨[noUsersMsg], [], 0, none⟩
    else
      match processUsers hashpw (pySplit (Char.ofNat 44) us) with
      | .error e => .error e
      | .ok (.inl failMsg) => .ok ⟨[failMsg], [], 0, none⟩
      | .ok (.inr (hashedUsers, setUsers)) =>
        if append then
          let preFail :=
            if existingUsers.length = 0 then
              ["No users exist to append to, please remove the append argument."]
            else []
          match findCollision setUsers (pySplit (Char.ofNat 44) existingUsers) with
          | some uname =>
            .ok ⟨preFail ++ ["The user " ++ uname ++ " already exists."], [], 0, none⟩
          | none =>
            let m : ConfigMap :=
              [("lp.auth.basic.enabled", CVal.bool true),
               ("lp.auth.basic.users",
                CVal.str (existingUsers ++ "," ++ pyJoin "," hashedUsers))]
            if runningAfterRestart then .ok ⟨preFail, [m], 1, some setUsers⟩
            else .ok ⟨preFail ++ ["Livepatch server could not be restarted."], [m], 1, none⟩
        else
          let m : ConfigMap :=
            [("lp.auth.basic.enabled", CVal.bool true),
             ("lp.auth.basic.users", CVal.str (pyJoin "," hashedUsers))]
          if runningAfterRestart then .ok ⟨[], [m], 1, some setUsers⟩
          else .ok ⟨["Livepatch server could not be restarted."], [m], 1, none⟩

/-! ## Helper lemmas -/

lemma isPrefixOf_self_append {α : Type} [BEq α] [LawfulBEq α] (l r : List α) :
    l.isPrefixOf (l ++ r) = true := by
  rw [List.isPrefixOf_iff_prefix]
  exact ⟨r, rfl⟩

lemma strOccurs_iff (s pat : String) :
    strOccurs s pat = true ↔ ∃ pre post, s.data = pre ++ pat.data ++ post := by
  unfold strOccurs
  rw [List.any_eq_true]
  constructor
  · rintro ⟨i, _, hpre⟩
    rw [List.isPrefixOf_iff_prefix] at hpre
    obtain ⟨t, ht⟩ := hpre
    exact ⟨s.data.take i, t, by rw [List.append_assoc, ht, List.take_append_drop]⟩
  · rintro ⟨pre, post, hdecomp⟩
    refine ⟨pre.length, ?_, ?_⟩
    · rw [List.mem_range]
      have : pre.length ≤ s.data.length := by
        rw [hdecomp]; simp only [List.length_append]; omega
      omega
    · rw [List.isPrefixOf_iff_prefix, hdecomp, List.append_assoc, List.drop_left]
      exact ⟨post, rfl⟩

lemma dropWhile_head_false {α : Type} (p : α → Bool) :
    ∀ (l : List α) (c : α) (tl : List α), l.dropWhile p = c :: tl → p c = false
  | [], _, _, h => by simp [List.dropWhile] at h
  | x :: xs, c, tl, h => by
    rw [List.dropWhile_cons] at h
    by_cases hx : p x = true
    · rw [if_pos hx] at h
      exact dropWhile_head_false p xs c tl h
    · rw [if_neg hx] at h
      cases h
      exact Bool.eq_false_iff.mpr hx

/-! ## Theorems for the claims -/

/-- Claim C9: the schema-gate check returns `(required := False, "")` on a
non-leader without invoking the version-check capability; on the leader it
invokes the capability on the canonical database URI (`run_schema_version_check`
captures non-zero-exit output as ordinary output) and reports
`required := True` exactly when the error-marker substring occurs in the first
line of the captured output, and otherwise `required := False` together with
the raw captured output. -/
theorem c9_schema_gate (marker : String) (dbUri : Option String)
    (cap : Option String → String) (line : String) (rest : List String)
    (h : pySplitlines (cap dbUri) = line :: rest) :
    (∀ cap2 : Option String → String,
        checkSchemaUpgradeRan marker false dbUri cap2 = .ok (false, ""))
    ∧ ∃ required : Bool,
        checkSchemaUpgradeRan marker true dbUri cap = .ok (required, cap dbUri)
        ∧ (required = true ↔ ∃ pre post, line.data = pre ++ marker.data ++ post) := by
  refine ⟨fun cap2 => rfl, strOccurs line marker, ?_, ?_⟩
  · unfold checkSchemaUpgradeRan
    rw [if_pos rfl, h]
    dsimp only
    by_cases ho : strOccurs line marker = true
    · rw [if_pos ho, ho]
    · rw [if_neg ho, Bool.eq_false_iff.mpr ho]
  · exact strOccurs_iff line marker

/-- Witness for C9 at a concrete marker-bearing capability output. -/
theorem c9_schema_gate_witness :
    checkSchemaUpgradeRan "Error" true (some "postgresql://u:p@h/livepatch")
        (fun _ => "Error: database not initialized\n")
      = .ok (true, "Error: database not initialized\n") := by
  obtain ⟨-, required, hrun, hiff⟩ :=
    c9_schema_gate "Error" (some "postgresql://u:p@h/livepatch")
      (fun _ => "Error: database not initialized\n")
      "Error: database not initialized" [] (by decide)
  have hr : required = true :=
    hiff.mpr ⟨[], ": database not initialized".data, by decide⟩
  rw [hr] at hrun
  exact hrun

/-- Claim C10: when the captured output of the version-check capability is the
empty string, the leader's schema gate raises `IndexError`
(`"".splitlines()[0]`) instead of returning a verdict; and since every
reconciliation pass runs the gate once the required-config and
install/relation checks pass, the pass itself crashes with that error rather
than reaching a blocked or waiting outcome. -/
theorem c10_empty_output_crash (env : ReconEnv) (inp : ReconInput) (st : UnitStatus)
    (hcap : env.cap inp.state.db_uri = "")
    (hleader : inp.leader = true)
    (hreq : checkRequiredConfigAssigned inp.config = none)
    (hchecks : checkInstallAndRelations env inp = none) :
    checkSchemaUpgradeRan inp.marker inp.leader inp.state.db_uri env.cap
      = .error "IndexError: list index out of range"
    ∧ updateWorkloadConfiguration env inp st
      = .error "IndexError: list index out of range" := by
  have hgate : checkSchemaUpgradeRan inp.marker inp.leader inp.state.db_uri env.cap
      = .error "IndexError: list index out of range" := by
    unfold checkSchemaUpgradeRan
    rw [hleader, if_pos rfl, hcap]
    rfl
  refine ⟨hgate, ?_⟩
  unfold updateWorkloadConfiguration
  rw [hreq, hchecks]
  unfold databaseMigrated
  rw [hgate]

/-- Witness for C10: a concrete leader input with an empty capability output. -/
theorem c10_empty_output_crash_witness :
    updateWorkloadConfiguration ⟨true, fun _ => "", true, false, true⟩
      ⟨[("server.url-template", CVal.str "t"),
        ("patch-storage.postgres-connection-string", CVal.str "")],
       true, "uuid", 1, 0, [], ⟨some "postgresql://u:p@h/livepatch", [], none⟩,
       "Error", true⟩
      ⟨.waiting, "w"⟩ = .error "IndexError: list index out of range" :=
  (c10_empty_output_crash ⟨true, fun _ => "", true, false, true⟩
    ⟨[("server.url-template", CVal.str "t"),
      ("patch-storage.postgres-connection-string", CVal.str "")],
     true, "uuid", 1, 0, [], ⟨some "postgresql://u:p@h/livepatch", [], none⟩,
     "Error", true⟩
    ⟨.waiting, "w"⟩ rfl rfl (by decide) (by decide)).2

lemma pySplitFirst_spec (sep : Char) (s : String) :
    (∀ c ∈ (pySplitFirst sep s).data, c ≠ sep)
    ∧ ∃ rest, s.data = (pySplitFirst sep s).data ++ rest
        ∧ (rest = [] ∨ ∃ tl, rest = sep :: tl) := by
  constructor
  · intro c hc
    have hc2 : c ∈ s.data.takeWhile (fun c => decide (c ≠ sep)) := hc
    have hc3 := List.mem_takeWhile_imp hc2
    exact of_decide_eq_true hc3
  · refine ⟨s.data.dropWhile (fun c => decide (c ≠ sep)), ?_, ?_⟩
    · exact (List.takeWhile_append_dropWhile (p := fun c => decide (c ≠ sep)) (l := s.data)).symm
    · cases hd : s.data.dropWhile (fun c => decide (c ≠ sep)) with
      | nil => exact Or.inl rfl
      | cons c tl =>
        right
        have hfalse := dropWhile_head_false _ _ _ _ hd
        have hc : c = sep := by
          by_contra hne
          rw [decide_eq_true hne] at hfalse
          exact Bool.noConfusion hfalse
        exact ⟨tl, by rw [hc]⟩

/-- Claim C1: on the leader, a legacy database-relation-joined event while the
modern `database` relation has at least one active relation raises an uncaught
`RuntimeError` naming the already-active relation, and a modern database event
while the legacy relation is active does the same (naming `database-legacy`)
without setting `db_uri` (the handler aborts with no new peer state). -/
theorem c1_mutual_exclusion (n : Nat) (hn : 0 < n) (evDb : Option String)
    (username password : Option String) (endpoints : String) (st : PeerState) :
    onLegacyDbRelationJoined true n evDb
      = .error "Integration with both database relations is not allowed; `database` is already activated."
    ∧ onDatabaseEvent true n username password endpoints st
      = .error "Integration with both database relations is not allowed; `database-legacy` is already activated."
    ∧ ∀ (st2 : PeerState) (out : DatabaseEventOutcome),
        onDatabaseEvent true n username password endpoints st ≠ .ok (st2, out) := by
  refine ⟨?_, ?_, ?_⟩
  · simp [onLegacyDbRelationJoined, hn]
  · simp [onDatabaseEvent, hn]
  · intro st2 out
    simp [onDatabaseEvent, hn]

/-- Witness for C1 with one active relation on the other channel. -/
theorem c1_mutual_exclusion_witness :
    onLegacyDbRelationJoined true 1 none
      = .error "Integration with both database relations is not allowed; `database` is already activated."
    ∧ onDatabaseEvent true 1 (some "u") (some "p") "h1" ⟨none, [], none⟩
      = .error "Integration with both database relations is not allowed; `database-legacy` is already activated." := by
  obtain ⟨h1, h2, -⟩ :=
    c1_mutual_exclusion 1 (by decide) none (some "u") (some "p") "h1" ⟨none, [], none⟩
  exact ⟨h1, h2⟩

/-- Claim C3: a modern database event handled by the leader (no legacy relation
active, so the mutual-exclusion error does not fire) with both credentials
present sets `db_uri` to `postgresql://<username>:<password>@<E>/livepatch`
where `<E>` is exactly the portion of the comma-separated endpoints string
before the first comma (it contains no comma and the remainder of the string
is empty or starts with a comma); with either credential absent, the state is
returned unchanged and the event is deferred. -/
theorem c3_modern_db_event (legacyRelCount : Nat) (hleg : legacyRelCount = 0)
    (u p endpoints : String) (st : PeerState) :
    onDatabaseEvent true legacyRelCount (some u) (some p) endpoints st
      = .ok ({ st with db_uri := some ("postgresql://" ++ u ++ ":" ++ p ++ "@"
            ++ pySplitFirst (Char.ofNat 44) endpoints ++ "/" ++ DATABASE_NAME) }, .updated)
    ∧ (∀ c ∈ (pySplitFirst (Char.ofNat 44) endpoints).data, c ≠ Char.ofNat 44)
    ∧ (∃ rest, endpoints.data = (pySplitFirst (Char.ofNat 44) endpoints).data ++ rest
        ∧ (rest = [] ∨ ∃ tl, rest = Char.ofNat 44 :: tl))
    ∧ (∀ u2 p2 : Option String, u2 = none ∨ p2 = none →
        onDatabaseEvent true legacyRelCount u2 p2 endpoints st = .ok (st, .deferredEvent)) := by
  subst hleg
  obtain ⟨hnc, hdecomp⟩ := pySplitFirst_spec (Char.ofNat 44) endpoints
  refine ⟨rfl, hnc, hdecomp, ?_⟩
  rintro u2 p2 (rfl | rfl)
  · cases p2 <;> rfl
  · cases u2 <;> rfl

/-- Witness for C3: endpoints `"h1,h2"` resolve to the first endpoint only. -/
theorem c3_modern_db_event_witness :
    onDatabaseEvent true 0 (some "user") (some "pass") "h1,h2" ⟨none, [], none⟩
      = .ok (⟨some "postgresql://user:pass@h1/livepatch", [], none⟩, .updated) := by
  have h := (c3_modern_db_event 0 rfl "user" "pass" "h1,h2" ⟨none, [], none⟩).1
  exact h.trans (by decide)

/-- Claim C2: with all inputs fixed (operator config, peer state, relation
snapshots, install/running state, leadership), running the reconciliation
pass twice produces the same applied configuration maps and the same final
unit status as the first run, with identical side effects on each pass
(the second run changes nothing further); at most one restart is issued per
pass, and configuration is applied exactly when the restart is issued (one
`snap.set` call per restart).  The pass never reads the incoming unit status
(it overwrites it before its only reads), which is why re-running from the
status the first run produced reproduces the run exactly. -/
theorem c2_reconciliation_idempotent (env : ReconEnv) (inp : ReconInput)
    (st0 st1 : UnitStatus) (eff : Effects)
    (h : updateWorkloadConfiguration env inp st0 = .ok (st1, eff)) :
    updateWorkloadConfiguration env inp st1 = .ok (st1, eff)
    ∧ eff.restartCalls ≤ 1
    ∧ eff.setCalls.length = eff.restartCalls := by
  have hconst : updateWorkloadConfiguration env inp st1
      = updateWorkloadConfiguration env inp st0 := rfl
  have heff : eff.restartCalls ≤ 1 ∧ eff.setCalls.length = eff.restartCalls := by
    unfold updateWorkloadConfiguration at h
    repeat' split at h
    all_goals first
      | (injection h; done)
      | (injection h with h1
         injection h1 with hst heff2
         subst heff2
         constructor <;> simp [Effects.empty])
  exact ⟨hconst.trans h, heff⟩

/-- Witness for C2: a full successful pass, re-run from the status it
produced. -/
theorem c2_reconciliation_idempotent_witness :
    updateWorkloadConfiguration ⟨true, fun _ => "1.0\n", false, false, true⟩
      ⟨[("server.url-template", CVal.str "t"),
        ("patch-storage.postgres-connection-string", CVal.str "")],
       true, "uuid-1", 1, 0, [], ⟨some "postgresql://u:p@h/livepatch", [], none⟩,
       "Error", true⟩
      ⟨.active, "Livepatch running!"⟩
      = .ok (⟨.active, "Livepatch running!"⟩,
        ⟨[[("lp.server.url-template", CVal.str "t"),
           ("lp.patch-storage.postgres-connection-string",
            CVal.str "postgresql://u:p@h/livepatch"),
           ("lp.server.is-leader", CVal.bool true),
           ("lp.database.connection-string", CVal.str "postgresql://u:p@h/livepatch")]],
         1, false, 0⟩) := by
  have h := c2_reconciliation_idempotent
    ⟨true, fun _ => "1.0\n", false, false, true⟩
    ⟨[("server.url-template", CVal.str "t"),
      ("patch-storage.postgres-connection-string", CVal.str "")],
     true, "uuid-1", 1, 0, [], ⟨some "postgresql://u:p@h/livepatch", [], none⟩,
     "Error", true⟩
    ⟨.waiting, "w"⟩
    ⟨.active, "Livepatch running!"⟩
    ⟨[[("lp.server.url-template", CVal.str "t"),
       ("lp.patch-storage.postgres-connection-string",
        CVal.str "postgresql://u:p@h/livepatch"),
       ("lp.server.is-leader", CVal.bool true),
       ("lp.database.connection-string", CVal.str "postgresql://u:p@h/livepatch")]],
     1, false, 0⟩
    (by decide)
  exact h.1

/-- Counterexample for claim C5 as stated: the update-status tick is not
limited to the two writes the claim allows.  With the snap not installed and
the current status a maintenance status set elsewhere (e.g. by an action),
the tick overwrites it with the not-installed message: the current status is
not `Active` (so the allowed Active-to-not-running downgrade does not apply)
and the new status is not the active `Livepatch running!` one, yet the
status changes. -/
theorem c5_counterexample :
    updateUnitStatus ⟨false, fun _ => "", false, false, false⟩
      ⟨[], true, "", 1, 0, [], ⟨some "u", [], none⟩, "Error", false⟩
      ⟨.maintenance, "status set by an action"⟩
      = ⟨.maintenance, LIVEPATCH_NOT_INSTALLED_ERROR⟩
    ∧ (⟨.maintenance, LIVEPATCH_NOT_INSTALLED_ERROR⟩ : UnitStatus)
        ≠ ⟨.maintenance, "status set by an action"⟩
    ∧ StatusLevel.maintenance ≠ StatusLevel.active
    ∧ LIVEPATCH_NOT_INSTALLED_ERROR ≠ "Livepatch running!" :=
  ⟨by decide, by decide, by decide, by decide⟩

/-- Claim C5, amended: when the install/relation checks pass, an
externally-set unit status is never overwritten by the update-status tick,
except that a running daemon yields the active `Livepatch running!` status
and an `Active` status with the daemon not running is downgraded to a
maintenance `Livepatch is not running.` status; when an install/relation
check fails, however, the tick overwrites the status with that check's own
blocked/waiting/maintenance status. -/
theorem c5_update_status_amended (env : ReconEnv) (inp : ReconInput) (cur : UnitStatus) :
    (∀ stat, checkInstallAndRelations env inp = some stat →
        updateUnitStatus env inp cur = stat)
    ∧ (checkInstallAndRelations env inp = none →
        (env.running = true →
          updateUnitStatus env inp cur = ⟨.active, "Livepatch running!"⟩)
        ∧ (env.running = false → cur.level = .active →
          updateUnitStatus env inp cur = ⟨.maintenance, "Livepatch is not running."⟩)
        ∧ (env.running = false → cur.level ≠ .active →
          updateUnitStatus env inp cur = cur)) := by
  constructor
  · intro stat hstat
    unfold updateUnitStatus
    rw [hstat]
  · intro hnone
    refine ⟨?_, ?_, ?_⟩
    · intro hr
      unfold updateUnitStatus
      rw [hnone]
      dsimp only
      rw [hr]
      rfl
    · intro hr hcur
      unfold updateUnitStatus
      rw [hnone]
      dsimp only
      rw [hr, if_neg (by simp), if_pos hcur]
    · intro hr hcur
      unfold updateUnitStatus
      rw [hnone]
      dsimp only
      rw [hr, if_neg (by simp), if_neg hcur]

/-- Witness for C5 (amended): a non-active externally-set status survives a
tick that finds the daemon not running. -/
theorem c5_update_status_amended_witness :
    updateUnitStatus ⟨true, fun _ => "", false, false, false⟩
      ⟨[], true, "", 1, 0, [], ⟨some "u", [], none⟩, "Error", false⟩
      ⟨.maintenance, "status set by an action"⟩
      = ⟨.maintenance, "status set by an action"⟩ := by
  have h := (c5_update_status_amended ⟨true, fun _ => "", false, false, false⟩
    ⟨[], true, "", 1, 0, [], ⟨some "u", [], none⟩, "Error", false⟩
    ⟨.maintenance, "status set by an action"⟩).2 (by decide)
  exact h.2.2 rfl (by decide)

/-- Counterexample for claim C7 as stated: with the snap not installed the
pass does stop early with the not-installed message, but the status class it
sets is `MaintenanceStatus`, not a blocked status. -/
theorem c7_counterexample :
    ∃ eff, updateWorkloadConfiguration ⟨false, fun _ => "", false, false, false⟩
        ⟨[("server.url-template", CVal.str "t")], true, "", 1, 0, [],
         ⟨some "postgresql://u:p@h/livepatch", [], none⟩, "Error", false⟩
        ⟨.waiting, "w"⟩
      = .ok (⟨.maintenance, LIVEPATCH_NOT_INSTALLED_ERROR⟩, eff)
    ∧ StatusLevel.maintenance ≠ StatusLevel.blocked
    ∧ eff = Effects.empty :=
  ⟨Effects.empty, rfl, by decide, rfl⟩

/-- Claim C7, amended: whenever a reconciliation pass runs while the snap is
not installed (and the required-config check passes, which runs first), the
pass stops before applying any configuration or restarting (empty effect
trace), and the unit status is set to a maintenance status — not a blocked
status — whose message says the snap is not installed. -/
theorem c7_not_installed_amended (env : ReconEnv) (inp : ReconInput) (st : UnitStatus)
    (hreq : checkRequiredConfigAssigned inp.config = none)
    (hinst : env.installed = false) :
    updateWorkloadConfiguration env inp st
      = .ok (⟨.maintenance, LIVEPATCH_NOT_INSTALLED_ERROR⟩, Effects.empty) := by
  have hcheck : checkInstallAndRelations env inp
      = some ⟨.maintenance, LIVEPATCH_NOT_INSTALLED_ERROR⟩ := by
    unfold checkInstallAndRelations
    rw [hinst]
    rfl
  unfold updateWorkloadConfiguration
  rw [hreq, hcheck]

/-- Witness for C7 (amended) at a concrete not-installed input. -/
theorem c7_not_installed_amended_witness :
    updateWorkloadConfiguration ⟨false, fun _ => "1.0", false, false, false⟩
      ⟨[("server.url-template", CVal.str "t")], false, "", 0, 1, [],
       ⟨none, [], none⟩, "Error", true⟩
      ⟨.active, "Livepatch running!"⟩
      = .ok (⟨.maintenance, LIVEPATCH_NOT_INSTALLED_ERROR⟩, Effects.empty) :=
  c7_not_installed_amended ⟨false, fun _ => "1.0", false, false, false⟩
    ⟨[("server.url-template", CVal.str "t")], false, "", 0, 1, [],
     ⟨none, [], none⟩, "Error", true⟩
    ⟨.active, "Livepatch running!"⟩ (by decide) rfl

lemma hasLpNS_lp_append (k : String) : hasLpNS ("lp." ++ k) = true := by
  unfold hasLpNS
  rw [String.data_append]
  exact isPrefixOf_self_append _ _

lemma pass_setCalls_prefixed (env : ReconEnv) (inp : ReconInput)
    (st st2 : UnitStatus) (eff : Effects)
    (h : updateWorkloadConfiguration env inp st = .ok (st2, eff)) :
    ∀ m ∈ eff.setCalls, ∀ kv ∈ m, hasLpNS kv.1 = true := by
  unfold updateWorkloadConfiguration at h
  repeat' split at h
  all_goals first
    | (injection h; done)
    | (injection h with h1
       injection h1 with hst heff2
       subst heff2
       intro m hm kv hkv
       first
         | exact absurd hm (List.not_mem_nil m)
         | (rw [List.mem_singleton] at hm
            subst hm
            obtain ⟨kv0, hkv0, hkveq⟩ := List.mem_map.mp hkv
            rw [← hkveq]
            exact hasLpNS_lp_append kv0.1))

lemma basicUsers_setCalls_prefixed (hashpw : String → Except String String)
    (exi : String) (run : Bool) (users : Option String) (app : Bool)
    (out : BasicUsersOutcome)
    (h : onSetBasicUsersAction hashpw exi run users app = .ok out) :
    ∀ m ∈ out.setCalls, ∀ kv ∈ m, hasLpNS kv.1 = true := by
  unfold onSetBasicUsersAction at h
  repeat' split at h
  all_goals first
    | (injection h; done)
    | (injection h with h1
       subst h1
       intro m hm kv hkv
       first
         | exact absurd hm (List.not_mem_nil m)
         | (rw [List.mem_singleton] at hm
            subst hm
            rcases List.mem_cons.mp hkv with rfl | hkv2
            · rfl
            · rcases List.mem_cons.mp hkv2 with rfl | hkv3
              · rfl
              · exact absurd hkv3 (List.not_mem_nil kv)))

lemma enable_setCalls_token (installed : Bool) (rt : String) (t : Option String) :
    ∀ m ∈ (onEnableAction installed rt t).setCalls, ∀ kv ∈ m, kv.1 = "token" := by
  unfold onEnableAction
  repeat' split
  all_goals intro m hm kv hkv
  all_goals first
    | exact absurd hm (List.not_mem_nil m)
    | (rw [List.mem_singleton] at hm
       subst hm
       rcases List.mem_cons.mp hkv with rfl | hkv2
       · rfl
       · exact absurd hkv2 (List.not_mem_nil kv))

/-- Counterexample for claim C6 as stated: the `enable` action writes the snap
configuration key `token` with no `lp.` namespace prefix. -/
theorem c6_counterexample :
    (onEnableAction true "tok" (some "tok")).setCalls = [[("token", CVal.str "tok")]]
    ∧ hasLpNS "token" = false :=
  ⟨by decide, by decide⟩

/-- Claim C6, amended: every map a reconciliation pass passes to the daemon
configuration set interface carries the `lp.` prefix on every key, and so
does every map written by the set-basic-users action; the enable action,
however, writes the single unprefixed key `token`. -/
theorem c6_lp_prefix_amended (env : ReconEnv) (inp : ReconInput)
    (st st2 : UnitStatus) (eff : Effects)
    (h : updateWorkloadConfiguration env inp st = .ok (st2, eff)) :
    (∀ m ∈ eff.setCalls, ∀ kv ∈ m, hasLpNS kv.1 = true)
    ∧ (∀ (hashpw : String → Except String String) (exi : String) (run : Bool)
        (users : Option String) (app : Bool) (out : BasicUsersOutcome),
        onSetBasicUsersAction hashpw exi run users app = .ok out →
        ∀ m ∈ out.setCalls, ∀ kv ∈ m, hasLpNS kv.1 = true)
    ∧ (∀ (installed : Bool) (rt : String) (t : Option String),
        ∀ m ∈ (onEnableAction installed rt t).setCalls, ∀ kv ∈ m, kv.1 = "token") :=
  ⟨pass_setCalls_prefixed env inp st st2 eff h,
   fun hashpw exi run users app out hout =>
     basicUsers_setCalls_prefixed hashpw exi run users app out hout,
   fun installed rt t => enable_setCalls_token installed rt t⟩

/-- Witness for C6 (amended): two keys applied by a concrete successful pass
carry the namespace prefix. -/
theorem c6_lp_prefix_amended_witness :
    hasLpNS "lp.server.url-template" = true
    ∧ hasLpNS "lp.database.connection-string" = true := by
  have h := (c6_lp_prefix_amended ⟨true, fun _ => "1.0\n", false, false, true⟩
    ⟨[("server.url-template", CVal.str "t"),
      ("patch-storage.postgres-connection-string", CVal.str "")],
     true, "uuid-1", 1, 0, [], ⟨some "postgresql://u:p@h/livepatch", [], none⟩,
     "Error", true⟩
    ⟨.waiting, "w"⟩
    ⟨.active, "Livepatch running!"⟩
    ⟨[[("lp.server.url-template", CVal.str "t"),
       ("lp.patch-storage.postgres-connection-string",
        CVal.str "postgresql://u:p@h/livepatch"),
       ("lp.server.is-leader", CVal.bool true),
       ("lp.database.connection-string", CVal.str "postgresql://u:p@h/livepatch")]],
     1, false, 0⟩
    (by decide)).1
  exact ⟨h [("lp.server.url-template", CVal.str "t"),
            ("lp.patch-storage.postgres-connection-string",
             CVal.str "postgresql://u:p@h/livepatch"),
            ("lp.server.is-leader", CVal.bool true),
            ("lp.database.connection-string", CVal.str "postgresql://u:p@h/livepatch")]
           (by decide) ("lp.server.url-template", CVal.str "t") (by decide),
         h [("lp.server.url-template", CVal.str "t"),
            ("lp.patch-storage.postgres-connection-string",
             CVal.str "postgresql://u:p@h/livepatch"),
            ("lp.server.is-leader", CVal.bool true),
            ("lp.database.connection-string", CVal.str "postgresql://u:p@h/livepatch")]
           (by decide)
           ("lp.database.connection-string", CVal.str "postgresql://u:p@h/livepatch")
           (by decide)⟩

lemma processUsers_inl_propagate (hashpw : String → Except String String)
    (pre l : List String) (m : String)
    (hpre : ∀ e ∈ pre, ∃ eu ep hp, pySplit (Char.ofNat 58) e = [eu, ep]
        ∧ ep.length ≤ 72 ∧ hashpw ep = .ok hp)
    (hl : processUsers hashpw l = .ok (.inl m)) :
    processUsers hashpw (pre ++ l) = .ok (.inl m) := by
  induction pre with
  | nil => simpa using hl
  | cons e rest ih =>
    obtain ⟨eu, ep, hp, hsplit, hlen, hhash⟩ := hpre e (List.mem_cons_self e rest)
    have ih2 := ih (fun x hx => hpre x (List.mem_cons_of_mem e hx))
    rw [List.cons_append]
    unfold processUsers
    rw [hsplit]
    dsimp only
    rw [if_neg (by omega), hhash, ih2]

/-- Counterexample for claim C8 as stated: the code bounds the password by 72
*characters* (`len` on a `str`), not 72 bytes.  A password of 37 two-byte
characters is 74 bytes long — over the claimed limit — yet the action
accepts it, hashes it, writes the daemon configuration and reports success
instead of failing. -/
theorem c8_counterexample :
    ("ééééééééééééééééééééééééééééééééééééé" : String).utf8ByteSize = 74
    ∧ onSetBasicUsersAction (fun s => .ok s) "" true
        (some "user:ééééééééééééééééééééééééééééééééééééé") false
      = .ok ⟨[], [[("lp.auth.basic.enabled", CVal.bool true),
                   ("lp.auth.basic.users",
                    CVal.str "user:ééééééééééééééééééééééééééééééééééééé")]],
             1, some ["user"]⟩ :=
  ⟨by decide, by decide⟩

/-- Claim C8, amended: the set-basic-users action bounds passwords by
*characters* (code points), not bytes: within a comma-separated `user:pass`
list whose earlier entries are well-formed and within the limit, an entry
whose password exceeds 72 characters makes the action fail with a message
identifying that password and no daemon configuration is written, while an
entry whose password is at most 72 characters (e.g. exactly 72) is accepted
and its bcrypt hash is recorded for writing. -/
theorem c8_password_length_amended (hashpw : String → Except String String)
    (exi : String) (run : Bool) (us : String)
    (pre : List String) (u p : String) (post : List String)
    (hsplit : pySplit (Char.ofNat 44) us = pre ++ (u ++ ":" ++ p) :: post)
    (hne : ¬us.length = 0)
    (hpre : ∀ e ∈ pre, ∃ eu ep hp, pySplit (Char.ofNat 58) e = [eu, ep]
        ∧ ep.length ≤ 72 ∧ hashpw ep = .ok hp)
    (hup : pySplit (Char.ofNat 58) (u ++ ":" ++ p) = [u, p]) :
    (72 < p.length →
        onSetBasicUsersAction hashpw exi run (some us) false
          = .ok ⟨["Password: " ++ p ++ " cannot be more than 72 characters."], [], 0, none⟩)
    ∧ (p.length ≤ 72 →
        ∀ hp, hashpw p = .ok hp →
        ∀ hs ss, processUsers hashpw post = .ok (.inr (hs, ss)) →
          processUsers hashpw ((u ++ ":" ++ p) :: post)
            = .ok (.inr ((u ++ ":" ++ hp) :: hs, u :: ss))) := by
  constructor
  · intro hlen
    have hentry : processUsers hashpw ((u ++ ":" ++ p) :: post)
        = .ok (.inl ("Password: " ++ p ++ " cannot be more than 72 characters.")) := by
      unfold processUsers
      rw [hup]
      dsimp only
      rw [if_pos hlen]
    have hall := processUsers_inl_propagate hashpw pre _ _ hpre hentry
    unfold onSetBasicUsersAction
    dsimp only
    rw [if_neg hne, hsplit, hall]
  · intro hle hp hhash hs ss hpost
    unfold processUsers
    rw [hup]
    dsimp only
    rw [if_neg (by omega), hhash, hpost]

/-- Witness for C8 (amended): a 73-character password is rejected with the
identifying message and nothing is written. -/
theorem c8_password_length_amended_witness :
    onSetBasicUsersAction (fun s => .ok s) "" true
      (some "alice:aaaaaaaaaaaaaaaaaaaaaaaaaaaaaaaaaaaaaaaaaaaaaaaaaaaaaaaaaaaaaaaaaaaaaaaaa")
      false
      = .ok ⟨["Password: aaaaaaaaaaaaaaaaaaaaaaaaaaaaaaaaaaaaaaaaaaaaaaaaaaaaaaaaaaaaaaaaaaaaaaaaa cannot be more than 72 characters."],
             [], 0, none⟩ := by
  have h := (c8_password_length_amended (fun s => .ok s) "" true
    "alice:aaaaaaaaaaaaaaaaaaaaaaaaaaaaaaaaaaaaaaaaaaaaaaaaaaaaaaaaaaaaaaaaaaaaaaaaa"
    [] "alice" "aaaaaaaaaaaaaaaaaaaaaaaaaaaaaaaaaaaaaaaaaaaaaaaaaaaaaaaaaaaaaaaaaaaaaaaaa" []
    (by decide) (by decide)
    (fun e he => absurd he (List.not_mem_nil e))
    (by decide)).1 (by decide)
  exact h.trans (by decide)

lemma lexLe_refl : ∀ (a : List Char), lexLe a a = true
  | [] => rfl
  | x :: xs => by
    unfold lexLe
    rw [if_neg (by omega), if_neg (by omega)]
    exact lexLe_refl xs

lemma lexLe_total : ∀ (a b : List Char), lexLe a b = true ∨ lexLe b a = true
  | [], _ => Or.inl rfl
  | _ :: _, [] => Or.inr rfl
  | x :: xs, y :: ys => by
    unfold lexLe
    by_cases h1 : x.toNat < y.toNat
    · exact Or.inl (by rw [if_pos h1])
    · by_cases h2 : y.toNat < x.toNat
      · exact Or.inr (by rw [if_pos h2])
      · rcases lexLe_total xs ys with h | h
        · exact Or.inl (by rw [if_neg h1, if_neg h2]; exact h)
        · exact Or.inr (by rw [if_neg h2, if_neg h1]; exact h)

lemma lexLe_cons_le {y z : Char} {ys zs : List Char}
    (h : lexLe (y :: ys) (z :: zs) = true) : y.toNat ≤ z.toNat := by
  unfold lexLe at h
  by_cases h1 : y.toNat < z.toNat
  · omega
  · by_cases h2 : z.toNat < y.toNat
    · rw [if_neg h1, if_pos h2] at h
      exact absurd h (by simp)
    · omega

lemma lexLe_trans : ∀ (a b c : List Char),
    lexLe a b = true → lexLe b c = true → lexLe a c = true
  | [], _, _, _, _ => rfl
  | _ :: _, [], _, hab, _ => absurd hab (by simp [lexLe])
  | _ :: _, _ :: _, [], _, hbc => absurd hbc (by simp [lexLe])
  | x :: xs, y :: ys, z :: zs, hab, hbc => by
    have hxy := lexLe_cons_le hab
    have hyz := lexLe_cons_le hbc
    unfold lexLe
    by_cases hg : x.toNat < z.toNat
    · rw [if_pos hg]
    · rw [if_neg hg, if_neg (by omega)]
      unfold lexLe at hab hbc
      rw [if_neg (by omega), if_neg (by omega)] at hab
      rw [if_neg (by omega), if_neg (by omega)] at hbc
      exact lexLe_trans xs ys zs hab hbc

instance : IsTotal ProUnit (fun a b => strLe a.name b.name = true) :=
  ⟨fun a b => lexLe_total a.name.data b.name.data⟩

instance : IsTrans ProUnit (fun a b => strLe a.name b.name = true) :=
  ⟨fun a b c hab hbc => lexLe_trans a.name.data b.name.data c.name.data hab hbc⟩

lemma proScan_eq_find : ∀ l : List ProUnit,
    proScan l = (l.find? proQualifies).bind proAddressOf
  | [] => rfl
  | u :: rest => by
    have ih := proScan_eq_find rest
    cases hd : u.data with
    | none =>
      have hq : proQualifies u = false := by
        unfold proQualifies proAddressOf
        rw [hd]
      unfold proScan
      rw [hd, List.find?_cons_of_neg _ (by simp [hq]), ih]
    | some d =>
      have hpa : proAddressOf u = extractProAirgappedServerAddress d := by
        unfold proAddressOf
        rw [hd]
      unfold proScan
      rw [hd]
      dsimp only
      cases he : extractProAirgappedServerAddress d with
      | none =>
        have hq : proQualifies u = false := by
          unfold proQualifies
          rw [hpa, he]
        rw [List.find?_cons_of_neg _ (by simp [hq]), ih]
      | some addr =>
        dsimp only
        by_cases ha : addr = ""
        · have hq : proQualifies u = false := by
            unfold proQualifies
            rw [hpa, he]
            simp [ha]
          rw [if_pos ha, List.find?_cons_of_neg _ (by simp [hq]), ih]
        · have hq : proQualifies u = true := by
            unfold proQualifies
            rw [hpa, he]
            simp [ha]
          rw [if_neg ha, List.find?_cons_of_pos _ hq]
          have hb : (some u).bind proAddressOf = proAddressOf u := rfl
          rw [hb, hpa, he]

lemma find_eq_some_decomp {α : Type} (p : α → Bool) :
    ∀ (l : List α) (a : α), l.find? p = some a →
      ∃ s t, l = s ++ a :: t ∧ ∀ x ∈ s, p x = false
  | [], a, h => by simp at h
  | x :: l, a, h => by
    by_cases hx : p x = true
    · rw [List.find?_cons_of_pos _ hx] at h
      injection h with h1
      exact ⟨[], l, by rw [h1]; rfl, by simp⟩
    · rw [List.find?_cons_of_neg _ hx] at h
      obtain ⟨s, t, hst, hall⟩ := find_eq_some_decomp p l a h
      refine ⟨x :: s, t, by rw [hst, List.cons_append], ?_⟩
      intro y hy
      rcases List.mem_cons.mp hy with rfl | hy2
      · exact Bool.eq_false_iff.mpr hx
      · exact hall y hy2

lemma str_ne_empty_of_data (s : String) (h : s.data ≠ []) : s ≠ "" := by
  intro he
  rw [he] at h
  exact h rfl

lemma mid_append_ne_empty (a c : String) : a ++ "://" ++ c ≠ "" := by
  intro he
  have hd := congrArg String.data he
  rw [String.data_append, String.data_append] at hd
  have h0 : ("" : String).data = [] := rfl
  rw [h0] at hd
  rcases List.append_eq_nil.mp hd with ⟨hd1, -⟩
  rcases List.append_eq_nil.mp hd1 with ⟨-, hd4⟩
  exact absurd hd4 (by decide)

lemma proQualifies_iff (u : ProUnit) :
    proQualifies u = true ↔ ∃ a, proAddressOf u = some a ∧ a ≠ "" := by
  unfold proQualifies
  cases hpa : proAddressOf u with
  | none => simp
  | some a => simp

lemma proQualifies_data_iff (u : ProUnit) :
    proQualifies u = true ↔
      ∃ d, u.data = some d ∧ ∃ hn, d.hostname = some hn ∧ hn ≠ "" := by
  rw [proQualifies_iff]
  cases hd : u.data with
  | none =>
    have hpa : proAddressOf u = none := by
      unfold proAddressOf
      rw [hd]
    rw [hpa]
    constructor
    · rintro ⟨a, ha, -⟩
      cases ha
    · rintro ⟨d, hd2, -⟩
      cases hd2
  | some d =>
    have hpa : proAddressOf u = extractProAirgappedServerAddress d := by
      unfold proAddressOf
      rw [hd]
    rw [hpa]
    constructor
    · rintro ⟨a, ha, hne⟩
      refine ⟨d, rfl, ?_⟩
      cases hh : d.hostname with
      | none =>
        rw [show extractProAirgappedServerAddress d = none from by
          unfold extractProAirgappedServerAddress; rw [hh]] at ha
        cases ha
      | some hn =>
        by_cases hhe : hn = ""
        · rw [show extractProAirgappedServerAddress d = none from by
            unfold extractProAirgappedServerAddress
            rw [hh]
            dsimp only
            rw [if_pos hhe]] at ha
          cases ha
        · exact ⟨hn, rfl, hhe⟩
    · rintro ⟨d2, hd2, hn, hh, hne⟩
      injection hd2 with hdd
      subst hdd
      refine ⟨(match d.scheme with
               | none => "http"
               | some s => if s = "" then "http" else s) ++ "://"
              ++ (hn ++ match d.port with
                        | none => ""
                        | some p => if p = "" then "" else ":" ++ p),
              ?_, mid_append_ne_empty _ _⟩
      unfold extractProAirgappedServerAddress
      rw [hh]
      dsimp only
      rw [if_neg hne]

lemma orderedInsert_append_big {α : Type} (r : α → α → Prop) [DecidableRel r]
    (x v : α) (hxv : r x v) :
    ∀ S : List α, List.orderedInsert r x (S ++ [v]) = List.orderedInsert r x S ++ [v]
  | [] => by simp [List.orderedInsert, hxv]
  | b :: S => by
    by_cases hb : r x b
    · simp [List.orderedInsert, hb]
    · simp only [List.cons_append, List.orderedInsert, if_neg hb]
      exact congrArg (fun l => b :: l) (orderedInsert_append_big r x v hxv S)

lemma insertionSort_append_big {α : Type} (r : α → α → Prop) [DecidableRel r] (v : α) :
    ∀ (l : List α), (∀ u ∈ l, r u v) →
      List.insertionSort r (l ++ [v]) = List.insertionSort r l ++ [v]
  | [], _ => by simp [List.insertionSort, List.orderedInsert]
  | x :: l, h => by
    rw [List.cons_append]
    simp only [List.insertionSort]
    rw [insertionSort_append_big r v l (fun u hu => h u (List.mem_cons_of_mem x hu))]
    exact orderedInsert_append_big r x v (h x (List.mem_cons_self x l)) _

/-- Claim C4: the locator returns the composed address of the first unit in
name-sorted order whose databag has a non-empty hostname (scheme defaulting
to `http`, `:port` omitted when absent — this composition is
`proAddressOf`), or no address when no unit qualifies; consequently
appending a unit whose name sorts after every existing unit never changes a
selected address, and removing the selected unit makes the same
characterization pick the next qualifying unit of the remaining sorted
list. -/
theorem c4_stable_address_selection (units : List ProUnit) :
    (∀ u, (sortProUnits units).find? proQualifies = some u →
        getAvailableProAirgappedServerAddress units = proAddressOf u
        ∧ ∀ w ∈ units, proQualifies w = true → strLe u.name w.name = true)
    ∧ (getAvailableProAirgappedServerAddress units = none ↔
        ∀ u ∈ units, proQualifies u = false)
    ∧ (∀ u ∈ units, (proQualifies u = true ↔
        ∃ d, u.data = some d ∧ ∃ hn, d.hostname = some hn ∧ hn ≠ ""))
    ∧ (∀ v : ProUnit, (∀ u ∈ units, strLe u.name v.name = true) →
        getAvailableProAirgappedServerAddress units ≠ none →
        getAvailableProAirgappedServerAddress (units ++ [v])
          = getAvailableProAirgappedServerAddress units) := by
  have hchar : getAvailableProAirgappedServerAddress units
      = ((sortProUnits units).find? proQualifies).bind proAddressOf :=
    proScan_eq_find (sortProUnits units)
  have hmem : ∀ w : ProUnit, w ∈ sortProUnits units ↔ w ∈ units := fun w =>
    (List.perm_insertionSort (fun a b => strLe a.name b.name = true) units).mem_iff
  refine ⟨?_, ?_, ?_, ?_⟩
  · intro u hu
    constructor
    · rw [hchar, hu]
      rfl
    · intro w hw hqw
      obtain ⟨s, t, hst, hall⟩ := find_eq_some_decomp proQualifies _ u hu
      have hsorted : List.Sorted (fun a b => strLe a.name b.name = true)
          (sortProUnits units) :=
        List.sorted_insertionSort (fun a b => strLe a.name b.name = true) units
      rw [hst] at hsorted
      have hwmem : w ∈ s ++ u :: t := by
        rw [← hst, hmem]
        exact hw
      rcases List.mem_append.mp hwmem with hws | hwt
      · exact absurd hqw (by rw [hall w hws]; simp)
      · rcases List.mem_cons.mp hwt with rfl | hwt2
        · exact lexLe_refl w.name.data
        · have hpair := (List.pairwise_append.mp hsorted).2.1
          exact (List.pairwise_cons.mp hpair).1 w hwt2
  · rw [hchar]
    constructor
    · intro hnone u hu
      cases hf : (sortProUnits units).find? proQualifies with
      | none =>
        have := List.find?_eq_none.mp hf u ((hmem u).mpr hu)
        exact Bool.eq_false_iff.mpr this
      | some w =>
        have hqw := List.find?_some hf
        obtain ⟨a, ha, hane⟩ := (proQualifies_iff w).mp hqw
        rw [hf] at hnone
        have hb : (some w).bind proAddressOf = proAddressOf w := rfl
        rw [hb, ha] at hnone
        cases hnone
    · intro hall
      have hf : (sortProUnits units).find? proQualifies = none :=
        List.find?_eq_none.mpr (fun w hw => by
          rw [hall w ((hmem w).mp hw)]
          simp)
      rw [hf]
      rfl
  · intro u _
    exact proQualifies_data_iff u
  · intro v hv hne
    cases hf : (sortProUnits units).find? proQualifies with
    | none =>
      exact absurd (by rw [hchar, hf]; rfl) hne
    | some u =>
      have hsortapp : sortProUnits (units ++ [v]) = sortProUnits units ++ [v] := by
        unfold sortProUnits
        exact insertionSort_append_big _ v units hv
      have hfapp : (sortProUnits (units ++ [v])).find? proQualifies = some u := by
        rw [hsortapp, List.find?_append, hf]
        rfl
      have hchar2 : getAvailableProAirgappedServerAddress (units ++ [v])
          = ((sortProUnits (units ++ [v])).find? proQualifies).bind proAddressOf :=
        proScan_eq_find (sortProUnits (units ++ [v]))
      rw [hchar2, hfapp, hchar, hf]

/-- Witness for C4: with units named `pro/1` and `pro/0` (hosts `b` and `a`)
added in that order, the selected address is `pro/0`'s; appending a
later-named unit does not change the selection. -/
theorem c4_stable_address_selection_witness :
    getAvailableProAirgappedServerAddress
      [⟨"pro/1", some ⟨some "b", none, none⟩⟩, ⟨"pro/0", some ⟨some "a", none, none⟩⟩]
      = some "http://a"
    ∧ getAvailableProAirgappedServerAddress
      ([⟨"pro/1", some ⟨some "b", none, none⟩⟩, ⟨"pro/0", some ⟨some "a", none, none⟩⟩]
        ++ [⟨"pro/2", some ⟨some "c", none, none⟩⟩])
      = some "http://a" := by
  have h := c4_stable_address_selection
    [⟨"pro/1", some ⟨some "b", none, none⟩⟩, ⟨"pro/0", some ⟨some "a", none, none⟩⟩]
  have h1 := (h.1 ⟨"pro/0", some ⟨some "a", none, none⟩⟩ (by decide)).1
  have h4 := h.2.2.2 ⟨"pro/2", some ⟨some "c", none, none⟩⟩ (by decide) (by decide)
  exact ⟨h1.trans (by decide), h4.trans (h1.trans (by decide))⟩

end LivepatchCharm
